import Mathlib

/-!
Verification development for a family of MCP tool servers
(`src/packages/bigquery/index.ts`, `src/packages/fetch/index.ts`,
`src/template/index.ts` and the unnamed fetch variant).

Each server registers a static tool catalog, dispatches call-tool requests
by tool name inside a try/catch that turns every thrown error into a normal
response envelope, and (for the bigquery server) bridges request
cancellation into the in-flight BigQuery job.  The upstream API clients
(BigQuery library, `fetch`, Slack HTTP API) are external collaborators and
are modelled as outcome parameters; every control-flow decision made by the
repository's own code is translated directly from the TypeScript source.
-/

namespace Mcp

/-- JSON-like values, as they occur in `request.params.arguments` and in the
objects the handlers serialize with `JSON.stringify`. -/
inductive JsonValue where
  | null
  | bool (b : Bool)
  | num (n : Int)
  | str (s : String)
  | arr (elems : List JsonValue)
  | obj (fields : List (String × JsonValue))
deriving Repr

/-- Escape of one character inside a JSON string literal, as performed by
`JSON.stringify` (quote, backslash, and control characters). -/
def escChar (c : Char) : String :=
  if c = '"' then "\\\""
  else if c = '\\' then "\\\\"
  else if c = '\n' then "\\n"
  else if c = '\r' then "\\r"
  else if c = '\t' then "\\t"
  else if c = Char.ofNat 8 then "\\b"
  else if c = Char.ofNat 12 then "\\f"
  else if c.toNat < 32 then
    let hexDigit : Nat → String := fun n =>
      if n < 10 then String.singleton (Char.ofNat (48 + n))
      else String.singleton (Char.ofNat (87 + n))
    "\\u00" ++ hexDigit (c.toNat / 16) ++ hexDigit (c.toNat % 16)
  else String.singleton c

/-- JSON string-literal escaping applied to a whole string. -/
def escape (s : String) : String :=
  String.join (s.data.map escChar)

mutual

/-- `JSON.stringify` on the modelled value space. -/
def stringify : JsonValue → String
  | .null => "null"
  | .bool true => "true"
  | .bool false => "false"
  | .num n => toString n
  | .str s => "\"" ++ escape s ++ "\""
  | .arr es => "[" ++ stringifyElems es ++ "]"
  | .obj fs => "\x7b" ++ stringifyFields fs ++ "\x7d"

/-- Comma-separated serialization of array elements. -/
def stringifyElems : List JsonValue → String
  | [] => ""
  | [v] => stringify v
  | v :: rest => stringify v ++ "," ++ stringifyElems rest

/-- Comma-separated serialization of object fields. -/
def stringifyFields : List (String × JsonValue) → String
  | [] => ""
  | [(k, v)] => "\"" ++ escape k ++ "\":" ++ stringify v
  | (k, v) :: rest =>
      "\"" ++ escape k ++ "\":" ++ stringify v ++ "," ++ stringifyFields rest

end

/-- JavaScript truthiness of a JSON value (an absent property is handled
separately, by `argTruthy`).  The handlers test required fields with
`if (!args.field)`, so `""`, `0`, `false` and `null` all count as missing. -/
def truthy : JsonValue → Bool
  | .null => false
  | .bool b => b
  | .num n => decide (n ≠ 0)
  | .str s => decide (s ≠ "")
  | .arr _ => true
  | .obj _ => true

/-- Property lookup on an arguments object (first binding wins, as in a JS
object literal read). -/
def getArg (args : List (String × JsonValue)) (key : String) : Option JsonValue :=
  (args.find? (fun p => p.1 = key)).map Prod.snd

/-- Truthiness of `args.key`: an absent key reads as `undefined`, which is
falsy. -/
def argTruthy (args : List (String × JsonValue)) (key : String) : Bool :=
  match getArg args key with
  | some v => truthy v
  | none => false

/-- The value of `args.key`, with `undefined` collapsed to `null` (only read
on paths where the truthiness check has already passed, so the default is
never observable there). -/
def argValue (args : List (String × JsonValue)) (key : String) : JsonValue :=
  (getArg args key).getD .null

/-- String coercion as performed by a template literal.  The handlers in
scope only ever interpolate string-typed arguments. -/
def jsToString : JsonValue → String
  | .str s => s
  | .bool true => "true"
  | .bool false => "false"
  | .null => "null"
  | .num n => toString n
  | .arr _ => ""
  | .obj _ => "[object Object]"

/-- A thrown JavaScript value: either an `Error` (with `name` and `message`)
or a non-`Error` value whose `String(...)` rendering is recorded. -/
inductive Thrown where
  | err (name message : String)
  | other (rendered : String)
deriving Repr, DecidableEq

/-- The text the catch blocks extract:
`error instanceof Error ? error.message : String(error)`. -/
def Thrown.text : Thrown → String
  | .err _ m => m
  | .other r => r

/-- The check `error instanceof Error && error.name === "AbortError"` from
`BigQueryClient.executeQuery`'s catch block. -/
def Thrown.isAbortError : Thrown → Bool
  | .err n _ => decide (n = "AbortError")
  | .other _ => false

/-! ### The cancellation bridge: `BigQueryClient.executeQuery`
(`src/packages/bigquery/index.ts` lines 101-134).

The request's `AbortSignal` is modelled by the instant at which it becomes
aborted, relative to the await points of the handler body. -/

/-- When the request's cancellation token becomes signalled, relative to the
handler's await points. -/
inductive AbortTime where
  /-- already signalled before the handler starts -/
  | beforeStart
  /-- becomes signalled after `createQueryJob` resolves but before the
  `signal?.aborted` check runs -/
  | afterCreate
  /-- becomes signalled while `getQueryResults` is pending (after the
  abort listener has been registered) -/
  | duringResults
  /-- never signalled -/
  | never
deriving Repr, DecidableEq

/-- Observable interactions of `executeQuery` with the upstream BigQuery
client and with the abort signal, in program order. -/
inductive BQEvent where
  | createQueryJob (query : JsonValue)
  | cancelJob (jobId : String)
  | addAbortListener
  | getQueryResults (jobId : String)
  | removeAbortListener
deriving Repr

/-- Does the event start a query job upstream? -/
def BQEvent.isCreate : BQEvent → Bool
  | .createQueryJob _ => true
  | _ => false

/-- Is the event a cancellation-request attempt against the job handle? -/
def BQEvent.isCancel : BQEvent → Bool
  | .cancelJob _ => true
  | _ => false

/-- Is the event the registration of the abort listener? -/
def BQEvent.isAdd : BQEvent → Bool
  | .addAbortListener => true
  | _ => false

/-- Is the event the deregistration of the abort listener? -/
def BQEvent.isRemove : BQEvent → Bool
  | .removeAbortListener => true
  | _ => false

/-- Is the event the start of the `getQueryResults` wait? -/
def BQEvent.isGetResults : BQEvent → Bool
  | .getQueryResults _ => true
  | _ => false

/-- Outcomes of the upstream BigQuery operations awaited by `executeQuery`
(the library is an external collaborator; each await may resolve or
reject). -/
structure BQEnv where
  /-- `createQueryJob` either rejects or resolves with a job whose id is
  recorded -/
  createJob : Except Thrown String
  /-- the awaited `job.cancel()` on the already-aborted path -/
  cancelOutcome : Except Thrown Unit
  /-- `getQueryResults` either rejects or resolves with rows -/
  results : Except Thrown (List JsonValue)

/-- Result of one run of `executeQuery`: the object the promise resolves
with, plus the trace of upstream/listener events in program order. -/
structure ExecOutcome where
  value : JsonValue
  trace : List BQEvent
deriving Repr

/-- The object built by `executeQuery`'s outer catch block: a cancelled
marker for `AbortError`, otherwise the error's message text. -/
def execCatchValue (e : Thrown) : JsonValue :=
  if e.isAbortError then
    .obj [("success", .bool false), ("error", .str "Request was cancelled")]
  else
    .obj [("success", .bool false), ("error", .str e.text)]

/-- `BigQueryClient.executeQuery(query, signal)`, translated statement by
statement from `src/packages/bigquery/index.ts` lines 101-134:

1. `await createQueryJob` (before any look at the signal);
2. if `signal?.aborted` is already true, `await job.cancel()` and resolve
   with the cancelled object carrying `jobId`;
3. otherwise register the one-shot abort listener, await
   `getQueryResults` (the listener fires `job.cancel()` exactly once if the
   signal aborts during the wait), and deregister the listener in the
   `finally` block whether the wait resolved or rejected;
4. the outer catch turns any rejection into a resolved object. -/
def executeQuery (query : JsonValue) (t : AbortTime) (env : BQEnv) : ExecOutcome :=
  match env.createJob with
  | .error e => ⟨execCatchValue e, [.createQueryJob query]⟩
  | .ok jobId =>
      if t = .beforeStart ∨ t = .afterCreate then
        match env.cancelOutcome with
        | .ok _ =>
            ⟨.obj [("success", .bool false),
                   ("error", .str "Request was cancelled"),
                   ("jobId", .str jobId)],
             [.createQueryJob query, .cancelJob jobId]⟩
        | .error e =>
            ⟨execCatchValue e, [.createQueryJob query, .cancelJob jobId]⟩
      else
        let fired : List BQEvent :=
          if t = .duringResults then [.cancelJob jobId] else []
        match env.results with
        | .ok rows =>
            ⟨.obj [("success", .bool true),
                   ("rows", .arr rows),
                   ("jobId", .str jobId)],
             [.createQueryJob query, .addAbortListener, .getQueryResults jobId]
               ++ fired ++ [.removeAbortListener]⟩
        | .error e =>
            ⟨execCatchValue e,
             [.createQueryJob query, .addAbortListener, .getQueryResults jobId]
               ++ fired ++ [.removeAbortListener]⟩

/-- Number of cancellation-request attempts in a trace. -/
def countCancels (tr : List BQEvent) : Nat := (tr.filter BQEvent.isCancel).length

/-- Number of abort-listener registrations in a trace. -/
def countAdds (tr : List BQEvent) : Nat := (tr.filter BQEvent.isAdd).length

/-- Number of abort-listener deregistrations in a trace. -/
def countRemoves (tr : List BQEvent) : Nat := (tr.filter BQEvent.isRemove).length

/-! ### The call-tool dispatchers.

Each server installs one `CallToolRequestSchema` handler: a try/catch whose
body first rejects a missing arguments object, then switches on the tool
name, validates the tool's required field by truthiness, and calls the API
client; the catch turns any thrown error into a normal response envelope
whose sole text block serializes an object with one `error` field. -/

/-- One content block of a call-tool response. -/
structure ContentBlock where
  type : String
  text : String
deriving Repr, DecidableEq

/-- A call-tool response envelope. -/
structure ToolResponse where
  content : List ContentBlock
deriving Repr, DecidableEq

/-- The envelope produced by the dispatcher's catch block for a thrown
message: one text block holding `JSON.stringify` of an object with a single
`error` field. -/
def failureEnvelope (message : String) : ToolResponse :=
  ⟨[⟨"text", stringify (.obj [("error", .str message)])⟩]⟩

/-- The envelope produced on a handler's success path for a client response
object: one text block holding its `JSON.stringify`. -/
def jsonEnvelope (value : JsonValue) : ToolResponse :=
  ⟨[⟨"text", stringify value⟩]⟩

/-- An invocation of an underlying API client method, recorded so the
theorems can state whether a request reached the client. -/
inductive ClientCall where
  | executeQuery (query : JsonValue)
  | dryRunQuery (query : JsonValue)
  | getJob (jobId : JsonValue)
  | cancelJob (jobId : JsonValue)
  | fetchUrl (url : JsonValue)
  | getUserProfile (userId : JsonValue)
deriving Repr

/-- Upstream outcomes for the four BigQuery tools.  `executeQuery` is
modelled in full above; the other three client methods catch internally and
resolve with an object whose contents no claim inspects, so the object each
resolves with is an oracle parameter. -/
structure BQClientEnv where
  exec : BQEnv
  dryRunValue : JsonValue
  getJobValue : JsonValue
  cancelJobValue : JsonValue

/-- The bigquery server's `CallToolRequestSchema` handler
(`src/packages/bigquery/index.ts` lines 249-321): reject a missing
arguments object, switch on the tool name, check the tool's required field
by truthiness, call the client, and serialize; any throw is caught into a
`failureEnvelope`.  Returns the response together with the list of client
invocations made. -/
def bigqueryDispatch (name : String) (args : Option (List (String × JsonValue)))
    (t : AbortTime) (env : BQClientEnv) : ToolResponse × List ClientCall :=
  match args with
  | none => (failureEnvelope "No arguments provided", [])
  | some a =>
      if name = "bigquery_execute_query" then
        if argTruthy a "query" then
          let q := argValue a "query"
          (jsonEnvelope (executeQuery q t env.exec).value, [.executeQuery q])
        else (failureEnvelope "Missing required argument: query", [])
      else if name = "bigquery_dry_run_query" then
        if argTruthy a "query" then
          (jsonEnvelope env.dryRunValue, [.dryRunQuery (argValue a "query")])
        else (failureEnvelope "Missing required argument: query", [])
      else if name = "bigquery_get_job" then
        if argTruthy a "jobId" then
          (jsonEnvelope env.getJobValue, [.getJob (argValue a "jobId")])
        else (failureEnvelope "Missing required argument: jobId", [])
      else if name = "bigquery_cancel_job" then
        if argTruthy a "jobId" then
          (jsonEnvelope env.cancelJobValue, [.cancelJob (argValue a "jobId")])
        else (failureEnvelope "Missing required argument: jobId", [])
      else (failureEnvelope ("Unknown tool: " ++ name), [])

/-- The fetch server's `CallToolRequestSchema` handler
(`src/packages/fetch/index.ts` lines 83-126).  `FetchClient.fetchUrl`
throws on failure (it wraps every failure in its own message before
rethrowing), so its outcome parameter is the already-wrapped result. -/
def fetchDispatch (name : String) (args : Option (List (String × JsonValue)))
    (fetchOutcome : Except Thrown String) : ToolResponse × List ClientCall :=
  match args with
  | none => (failureEnvelope "No arguments provided", [])
  | some a =>
      if name = "fetch" then
        if argTruthy a "url" then
          let u := argValue a "url"
          match fetchOutcome with
          | .ok content =>
              (⟨[⟨"text", "Contents of " ++ jsToString u ++ ":\n" ++ content⟩]⟩,
               [.fetchUrl u])
          | .error e => (failureEnvelope e.text, [.fetchUrl u])
        else (failureEnvelope "URL is required", [])
      else (failureEnvelope ("Unknown tool: " ++ name), [])

/-- The template (Slack) server's `CallToolRequestSchema` handler
(`src/template/index.ts` lines 82-121).  `SlackClient.getUserProfile` does
not catch, so a rejected HTTP call propagates to the dispatcher's catch. -/
def slackDispatch (name : String) (args : Option (List (String × JsonValue)))
    (profileOutcome : Except Thrown JsonValue) : ToolResponse × List ClientCall :=
  match args with
  | none => (failureEnvelope "No arguments provided", [])
  | some a =>
      if name = "slack_get_user_profile" then
        if argTruthy a "user_id" then
          let uid := argValue a "user_id"
          match profileOutcome with
          | .ok v => (jsonEnvelope v, [.getUserProfile uid])
          | .error e => (failureEnvelope e.text, [.getUserProfile uid])
        else (failureEnvelope "Missing required argument: user_id", [])
      else (failureEnvelope ("Unknown tool: " ++ name), [])

/-! ### The fetch server's prompt-retrieval handler
(`src/packages/fetch/index.ts` lines 154-197). -/

/-- One rendered prompt message (role plus its text content block). -/
structure PromptMessage where
  role : String
  contentText : String
deriving Repr, DecidableEq

/-- The object a successful prompt retrieval resolves with. -/
structure PromptResult where
  description : String
  messages : List PromptMessage
deriving Repr, DecidableEq

/-- The `GetPromptRequestSchema` handler.  It never looks at the prompt
name.  `request.params.arguments?.url` is tested by truthiness: a missing
arguments object or a falsy `url` throws `URL is required`, and the outer
catch logs and rethrows, so that throw reaches the transport
(`Except.error`).  With a truthy `url`, an inner try/catch embeds a fetch
failure's message text as the message content instead of failing. -/
def getPrompt (_name : String) (args : Option (List (String × JsonValue)))
    (fetchOutcome : Except Thrown String) : Except Thrown PromptResult :=
  let urlTruthy :=
    match args with
    | none => false
    | some a => argTruthy a "url"
  if urlTruthy then
    let url := jsToString (argValue (args.getD []) "url")
    match fetchOutcome with
    | .ok content => .ok ⟨"Contents of " ++ url, [⟨"user", content⟩]⟩
    | .error e => .ok ⟨"Failed to fetch " ++ url, [⟨"user", e.text⟩]⟩
  else .error (.err "Error" "URL is required")

/-! ### Process startup and configuration
(`main` in each service: bigquery lines 226-232, template lines 56-65,
fetch lines 65-81). -/

/-- The process environment: variable name to value, `none` when unset. -/
def EnvMap := String → Option String

/-- The transport selected at startup: `--sse` picks the push-stream
variant, its absence the stdio variant. -/
inductive TransportMode where
  | stdio
  | sse
deriving Repr, DecidableEq

/-- How far `main` gets: an early `process.exit` with a diagnostic, or
proceeding to construct the server and connect a transport. -/
inductive StartupOutcome where
  | exited (code : Nat) (diagnostic : String)
  | serving (mode : TransportMode)
deriving Repr, DecidableEq

/-- `!process.env.X`: true when the variable is unset or the empty string
(both are falsy in the guard the services use). -/
def envFalsy (env : EnvMap) (key : String) : Bool :=
  match env key with
  | none => true
  | some s => decide (s = "")

/-- The bigquery server's `main` prologue: requires
`BIGQUERY_CREDENTIALS`, logging to stderr and exiting with code 1 before
any server or transport is constructed when it is missing. -/
def bigqueryStartup (env : EnvMap) (sseFlag : Bool) : StartupOutcome :=
  if envFalsy env "BIGQUERY_CREDENTIALS" then
    .exited 1 "Please set BIGQUERY_CREDENTIALS environment variable"
  else .serving (if sseFlag then .sse else .stdio)

/-- The template (Slack) server's `main` prologue: requires both
`SLACK_BOT_TOKEN` and `SLACK_TEAM_ID`. -/
def slackStartup (env : EnvMap) (sseFlag : Bool) : StartupOutcome :=
  if envFalsy env "SLACK_BOT_TOKEN" || envFalsy env "SLACK_TEAM_ID" then
    .exited 1 "Please set SLACK_BOT_TOKEN and SLACK_TEAM_ID environment variables"
  else .serving (if sseFlag then .sse else .stdio)

/-- The fetch server's `main` prologue: `MCP_USER_AGENT` is read with a
default fallback (`env || DEFAULT_USER_AGENT`), so no environment variable
is required and startup always proceeds to a transport. -/
def fetchStartup (_env : EnvMap) (sseFlag : Bool) : StartupOutcome :=
  .serving (if sseFlag then .sse else .stdio)

/-- The fetch server's default user agent string. -/
def DEFAULT_USER_AGENT : String :=
  "ModelContextProtocol/1.0 (+https://github.com/modelcontextprotocol/servers)"

/-- The user agent the fetch server actually uses:
`process.env.MCP_USER_AGENT || DEFAULT_USER_AGENT`. -/
def fetchUserAgent (env : EnvMap) : String :=
  match env "MCP_USER_AGENT" with
  | some s => if s = "" then DEFAULT_USER_AGENT else s
  | none => DEFAULT_USER_AGENT

/-! ### The push-stream (SSE) transport's session handling
(`src/packages/bigquery/index.ts` lines 330-344; the fetch and template
servers are verbatim copies of the same two endpoint handlers). -/

/-- State of the push-stream transport: the single mutable
`let transport: SSEServerTransport | null` slot (identified by a numeric
handle), plus the log of messages routed so far, each tagged with the
session handle that received it. -/
structure SseState where
  transport : Option Nat
  routed : List (Nat × Nat)
deriving Repr, DecidableEq

/-- The `GET /sse` handler: store the freshly created transport as the
active session (silently superseding any previous one). -/
def handleSseConnect (st : SseState) (newTransportId : Nat) : SseState :=
  ⟨some newTransportId, st.routed⟩

/-- The `POST /messages` handler: `if (transport) transport.handlePostMessage(...)`.
With an active session the message is routed to it; with no session the
body of the `if` is skipped, so nothing is routed, nothing is queued, and
the handler returns normally. -/
def handlePostMessage (st : SseState) (message : Nat) : SseState :=
  match st.transport with
  | some tid => ⟨st.transport, st.routed ++ [(tid, message)]⟩
  | none => st

/-! ### Diagnostic output channels.

Every `console.error` / `console.log` call site in the three services is
listed with the channel it writes to and the transport modes in which it
can execute.  Protocol output travels on stdout in stdio mode and on the
HTTP connection in SSE mode. -/

/-- An output channel of the process. -/
inductive Channel where
  | stdout
  | stderr
  | http
deriving Repr, DecidableEq

/-- One logging call site in the source: file, line, the channel it writes
to (`console.error` writes to stderr, `console.log` to stdout), and the
transport modes under which the site can execute. -/
structure LogSite where
  file : String
  line : Nat
  channel : Channel
  inStdioMode : Bool
  inSseMode : Bool
deriving Repr, DecidableEq

/-- Can the site emit while the process runs in the given mode? -/
def LogSite.reachableIn (s : LogSite) : TransportMode → Bool
  | .stdio => s.inStdioMode
  | .sse => s.inSseMode

/-- The channel carrying protocol responses in each transport mode. -/
def protocolChannel : TransportMode → Channel
  | .stdio => .stdout
  | .sse => .http

/-- All logging call sites of `src/packages/bigquery/index.ts`.  Sites in
`main` before the transport branch, in the request handlers, and in the
fatal-error catch can run in either mode; the `console.log` inside
`app.listen` runs only in SSE mode; the two stdio-branch lines only in
stdio mode. -/
def bigqueryLogSites : List LogSite :=
  [⟨"bigquery", 108, .stderr, true, true⟩,
   ⟨"bigquery", 230, .stderr, true, true⟩,
   ⟨"bigquery", 234, .stderr, true, true⟩,
   ⟨"bigquery", 252, .stderr, true, true⟩,
   ⟨"bigquery", 308, .stderr, true, true⟩,
   ⟨"bigquery", 324, .stderr, true, true⟩,
   ⟨"bigquery", 347, .stdout, false, true⟩,
   ⟨"bigquery", 351, .stderr, true, false⟩,
   ⟨"bigquery", 354, .stderr, true, false⟩,
   ⟨"bigquery", 359, .stderr, true, true⟩]

/-- All logging call sites of `src/packages/fetch/index.ts`. -/
def fetchLogSites : List LogSite :=
  [⟨"fetch", 68, .stderr, true, true⟩,
   ⟨"fetch", 86, .stderr, true, true⟩,
   ⟨"fetch", 113, .stderr, true, true⟩,
   ⟨"fetch", 129, .stderr, true, true⟩,
   ⟨"fetch", 136, .stderr, true, true⟩,
   ⟨"fetch", 157, .stderr, true, true⟩,
   ⟨"fetch", 193, .stderr, true, true⟩,
   ⟨"fetch", 216, .stdout, false, true⟩,
   ⟨"fetch", 220, .stderr, true, false⟩,
   ⟨"fetch", 223, .stderr, true, false⟩,
   ⟨"fetch", 228, .stderr, true, true⟩]

/-- All logging call sites of `src/template/index.ts` (the Slack template
in its first half, lines 1-162, and the stdio-only bigquery variant
concatenated after it, lines 163-365, whose every site is `console.error`). -/
def templateLogSites : List LogSite :=
  [⟨"template", 61, .stderr, true, true⟩,
   ⟨"template", 67, .stderr, true, true⟩,
   ⟨"template", 85, .stderr, true, true⟩,
   ⟨"template", 108, .stderr, true, true⟩,
   ⟨"template", 124, .stderr, true, true⟩,
   ⟨"template", 147, .stdout, false, true⟩,
   ⟨"template", 151, .stderr, true, false⟩,
   ⟨"template", 154, .stderr, true, false⟩,
   ⟨"template", 159, .stderr, true, true⟩,
   ⟨"template", 277, .stderr, true, false⟩,
   ⟨"template", 281, .stderr, true, false⟩,
   ⟨"template", 299, .stderr, true, false⟩,
   ⟨"template", 333, .stderr, true, false⟩,
   ⟨"template", 349, .stderr, true, false⟩,
   ⟨"template", 356, .stderr, true, false⟩,
   ⟨"template", 359, .stderr, true, false⟩,
   ⟨"template", 363, .stderr, true, false⟩]

/-- Every logging call site across the repository's services. -/
def allLogSites : List LogSite :=
  bigqueryLogSites ++ fetchLogSites ++ templateLogSites

/-! ### Shared concrete sample values used by witnesses and
counterexamples. -/

/-- A well-behaved upstream: job creation, cancellation and results all
resolve. -/
def sampleBQEnv : BQEnv := ⟨.ok "job1", .ok (), .ok [.num 1]⟩

/-- A full client environment around `sampleBQEnv`. -/
def sampleClientEnv : BQClientEnv := ⟨sampleBQEnv, .null, .null, .null⟩

/-- An upstream whose `createQueryJob` rejects with a plain error. -/
def rejectingClientEnv : BQClientEnv :=
  ⟨⟨.error (.err "Error" "boom"), .ok (), .ok []⟩, .null, .null, .null⟩

/-! ## Claims -/

/-- **C1, counterexample.**  The claim says a call whose cancellation token
is already signalled before the handler starts "never invokes the upstream
client start operation (no query job is created)".  On the code,
`createQueryJob` is awaited *before* the `signal?.aborted` check
(lines 103 and 112 of `src/packages/bigquery/index.ts`), so with a
pre-signalled token the query job is still created: the trace of the run
contains a `createQueryJob` event.  The message part of the claim does
hold: the resolved object carries `Request was cancelled`. -/
theorem c1_counterexample :
    (executeQuery (.str "SELECT 1") .beforeStart sampleBQEnv).trace.any
        BQEvent.isCreate = true
      ∧ (executeQuery (.str "SELECT 1") .beforeStart sampleBQEnv).value
        = .obj [("success", .bool false),
                ("error", .str "Request was cancelled"),
                ("jobId", .str "job1")] :=
  ⟨rfl, rfl⟩

/-- **C1, amended.**  With a token already signalled before the handler
starts, `executeQuery` still creates the query job, then immediately
cancels the just-created job and resolves with a Failure object whose
message is `Request was cancelled` (carrying the job id), without ever
awaiting query results: the trace is exactly job creation followed by one
cancellation request, with no `getQueryResults` event. -/
theorem c1_amended (q : JsonValue) (env : BQEnv) (jobId : String)
    (hc : env.createJob = .ok jobId) (hk : env.cancelOutcome = .ok ()) :
    executeQuery q .beforeStart env
      = ⟨.obj [("success", .bool false),
               ("error", .str "Request was cancelled"),
               ("jobId", .str jobId)],
         [.createQueryJob q, .cancelJob jobId]⟩ := by
  obtain ⟨cj, co, res⟩ := env
  simp only at hc hk
  subst hc hk
  rfl

/-- **C1, witness** for the amended theorem at a concrete input. -/
theorem c1_amended_witness :
    executeQuery (.str "SELECT 1") .beforeStart sampleBQEnv
      = ⟨.obj [("success", .bool false),
               ("error", .str "Request was cancelled"),
               ("jobId", .str "job1")],
         [.createQueryJob (.str "SELECT 1"), .cancelJob "job1"]⟩ :=
  c1_amended (.str "SELECT 1") sampleBQEnv "job1" rfl rfl

/-- **C3.**  For an execution of `bigquery_execute_query` whose token is
not yet signalled when the handler starts and whose job creation succeeds:
if cancellation arrives while `getQueryResults` is pending, the trace holds
exactly one cancellation-request attempt, exactly one listener
registration, and exactly one listener deregistration — whatever
`getQueryResults` resolves or rejects with (success, failure, or an
abort rejection); if it arrives in the window after job creation but
before the aborted check, there is again exactly one cancellation-request
attempt and registrations still balance deregistrations (both zero), so no
listener ever leaks. -/
theorem c3_theorem (q : JsonValue) (env : BQEnv) (jobId : String)
    (hc : env.createJob = .ok jobId) :
    (countCancels (executeQuery q .duringResults env).trace = 1
      ∧ countAdds (executeQuery q .duringResults env).trace = 1
      ∧ countRemoves (executeQuery q .duringResults env).trace = 1)
    ∧ (countCancels (executeQuery q .afterCreate env).trace = 1
      ∧ countAdds (executeQuery q .afterCreate env).trace = 0
      ∧ countRemoves (executeQuery q .afterCreate env).trace = 0) := by
  obtain ⟨cj, co, res⟩ := env
  simp only at hc
  subst hc
  refine ⟨?_, ?_⟩
  · cases res <;>
      simp [executeQuery, countCancels, countAdds, countRemoves,
        BQEvent.isCancel, BQEvent.isAdd, BQEvent.isRemove]
  · cases co <;>
      simp [executeQuery, countCancels, countAdds, countRemoves,
        BQEvent.isCancel, BQEvent.isAdd, BQEvent.isRemove]

/-- **C3, witness** at a concrete run (results resolve with one row). -/
theorem c3_theorem_witness :
    (countCancels (executeQuery (.str "SELECT 1") .duringResults sampleBQEnv).trace = 1
      ∧ countAdds (executeQuery (.str "SELECT 1") .duringResults sampleBQEnv).trace = 1
      ∧ countRemoves (executeQuery (.str "SELECT 1") .duringResults sampleBQEnv).trace = 1)
    ∧ (countCancels (executeQuery (.str "SELECT 1") .afterCreate sampleBQEnv).trace = 1
      ∧ countAdds (executeQuery (.str "SELECT 1") .afterCreate sampleBQEnv).trace = 0
      ∧ countRemoves (executeQuery (.str "SELECT 1") .afterCreate sampleBQEnv).trace = 0) :=
  c3_theorem (.str "SELECT 1") sampleBQEnv "job1" rfl

/-- **C6.**  A call-tool request whose arguments object is absent or null
is answered, for any tool name whatsoever and by all three dispatchers,
with the Failure envelope `No arguments provided`, with no client
invocation; the dispatchers are total functions, so no transport-level
error is raised, and since the arguments check precedes the name switch
this failure takes precedence over the unknown-tool failure. -/
theorem c6_theorem (name : String) (t : AbortTime) (env : BQClientEnv)
    (fo : Except Thrown String) (po : Except Thrown JsonValue) :
    bigqueryDispatch name none t env = (failureEnvelope "No arguments provided", [])
    ∧ fetchDispatch name none fo = (failureEnvelope "No arguments provided", [])
    ∧ slackDispatch name none po = (failureEnvelope "No arguments provided", []) :=
  ⟨rfl, rfl, rfl⟩

/-- **C8.**  A message posted to the `messages` endpoint while no session
handle is stored leaves the transport state exactly as it was: nothing is
routed to any handler and nothing is queued, so a session opened later
still has an empty delivery log for that message; the handler is a total
function, so no exception is thrown. -/
theorem c8_theorem (r : List (Nat × Nat)) (m tid : Nat) :
    handlePostMessage ⟨none, r⟩ m = ⟨none, r⟩
    ∧ (handleSseConnect (handlePostMessage ⟨none, r⟩ m) tid).routed = r :=
  ⟨rfl, rfl⟩

/-- **C10.**  Because each handler tests its required field with
`if (!args.field)`, supplying the empty string is indistinguishable from
omitting the field: for every registered tool of the three services, both
spellings produce exactly the per-tool validation Failure envelope and
zero client invocations. -/
theorem c10_theorem (t : AbortTime) (env : BQClientEnv)
    (fo : Except Thrown String) (po : Except Thrown JsonValue) :
    (bigqueryDispatch "bigquery_execute_query" (some [("query", .str "")]) t env
        = (failureEnvelope "Missing required argument: query", [])
      ∧ bigqueryDispatch "bigquery_execute_query" (some []) t env
        = (failureEnvelope "Missing required argument: query", []))
    ∧ (bigqueryDispatch "bigquery_dry_run_query" (some [("query", .str "")]) t env
        = (failureEnvelope "Missing required argument: query", [])
      ∧ bigqueryDispatch "bigquery_dry_run_query" (some []) t env
        = (failureEnvelope "Missing required argument: query", []))
    ∧ (bigqueryDispatch "bigquery_get_job" (some [("jobId", .str "")]) t env
        = (failureEnvelope "Missing required argument: jobId", [])
      ∧ bigqueryDispatch "bigquery_get_job" (some []) t env
        = (failureEnvelope "Missing required argument: jobId", []))
    ∧ (bigqueryDispatch "bigquery_cancel_job" (some [("jobId", .str "")]) t env
        = (failureEnvelope "Missing required argument: jobId", [])
      ∧ bigqueryDispatch "bigquery_cancel_job" (some []) t env
        = (failureEnvelope "Missing required argument: jobId", []))
    ∧ (slackDispatch "slack_get_user_profile" (some [("user_id", .str "")]) po
        = (failureEnvelope "Missing required argument: user_id", [])
      ∧ slackDispatch "slack_get_user_profile" (some []) po
        = (failureEnvelope "Missing required argument: user_id", []))
    ∧ (fetchDispatch "fetch" (some [("url", .str "")]) fo
        = (failureEnvelope "URL is required", [])
      ∧ fetchDispatch "fetch" (some []) fo
        = (failureEnvelope "URL is required", [])) :=
  ⟨⟨rfl, rfl⟩, ⟨rfl, rfl⟩, ⟨rfl, rfl⟩, ⟨rfl, rfl⟩, ⟨rfl, rfl⟩, ⟨rfl, rfl⟩⟩

/-- A field whose lookup misses is not truthy. -/
theorem argTruthy_of_getArg_none {a : List (String × JsonValue)} {k : String}
    (h : getArg a k = none) : argTruthy a k = false := by
  simp [argTruthy, h]

/-- **C2, counterexample.**  The fetch service's `fetch` tool requires the
field `url` (its descriptor lists `required: ["url"]`), yet omitting `url`
produces the Failure envelope `URL is required`
(`src/packages/fetch/index.ts` line 96) — not the claimed
`Missing required argument: url` — so the claimed message shape does not
hold for every registered tool. -/
theorem c2_counterexample :
    fetchDispatch "fetch" (some []) (.ok "body")
      = (failureEnvelope "URL is required", [])
    ∧ failureEnvelope "URL is required"
      ≠ failureEnvelope "Missing required argument: url" :=
  ⟨rfl, by decide⟩

/-- **C2, amended.**  For every registered tool, a call-tool request whose
arguments object omits the tool's required field yields that tool's
validation Failure envelope without any client invocation — with message
`Missing required argument: <field>` for the four bigquery tools and the
Slack tool, but `URL is required` for the fetch tool — and a request
supplying the required field with a non-empty string reaches the
underlying client. -/
theorem c2_amended :
    (∀ (a : List (String × JsonValue)) (t : AbortTime) (env : BQClientEnv),
        getArg a "query" = none →
        bigqueryDispatch "bigquery_execute_query" (some a) t env
          = (failureEnvelope "Missing required argument: query", []))
    ∧ (∀ (a : List (String × JsonValue)) (t : AbortTime) (env : BQClientEnv),
        getArg a "query" = none →
        bigqueryDispatch "bigquery_dry_run_query" (some a) t env
          = (failureEnvelope "Missing required argument: query", []))
    ∧ (∀ (a : List (String × JsonValue)) (t : AbortTime) (env : BQClientEnv),
        getArg a "jobId" = none →
        bigqueryDispatch "bigquery_get_job" (some a) t env
          = (failureEnvelope "Missing required argument: jobId", []))
    ∧ (∀ (a : List (String × JsonValue)) (t : AbortTime) (env : BQClientEnv),
        getArg a "jobId" = none →
        bigqueryDispatch "bigquery_cancel_job" (some a) t env
          = (failureEnvelope "Missing required argument: jobId", []))
    ∧ (∀ (a : List (String × JsonValue)) (po : Except Thrown JsonValue),
        getArg a "user_id" = none →
        slackDispatch "slack_get_user_profile" (some a) po
          = (failureEnvelope "Missing required argument: user_id", []))
    ∧ (∀ (a : List (String × JsonValue)) (fo : Except Thrown String),
        getArg a "url" = none →
        fetchDispatch "fetch" (some a) fo
          = (failureEnvelope "URL is required", []))
    ∧ (∀ (q : String) (t : AbortTime) (env : BQClientEnv), q ≠ "" →
        (bigqueryDispatch "bigquery_execute_query"
            (some [("query", .str q)]) t env).2 = [.executeQuery (.str q)])
    ∧ (∀ (q : String) (t : AbortTime) (env : BQClientEnv), q ≠ "" →
        (bigqueryDispatch "bigquery_dry_run_query"
            (some [("query", .str q)]) t env).2 = [.dryRunQuery (.str q)])
    ∧ (∀ (j : String) (t : AbortTime) (env : BQClientEnv), j ≠ "" →
        (bigqueryDispatch "bigquery_get_job"
            (some [("jobId", .str j)]) t env).2 = [.getJob (.str j)])
    ∧ (∀ (j : String) (t : AbortTime) (env : BQClientEnv), j ≠ "" →
        (bigqueryDispatch "bigquery_cancel_job"
            (some [("jobId", .str j)]) t env).2 = [.cancelJob (.str j)])
    ∧ (∀ (u : String) (po : Except Thrown JsonValue), u ≠ "" →
        (slackDispatch "slack_get_user_profile"
            (some [("user_id", .str u)]) po).2 = [.getUserProfile (.str u)])
    ∧ (∀ (u : String) (fo : Except Thrown String), u ≠ "" →
        (fetchDispatch "fetch" (some [("url", .str u)]) fo).2
          = [.fetchUrl (.str u)]) := by
  refine ⟨?_, ?_, ?_, ?_, ?_, ?_, ?_, ?_, ?_, ?_, ?_, ?_⟩
  · intro a t env h
    simp [bigqueryDispatch, argTruthy_of_getArg_none h]
  · intro a t env h
    simp [bigqueryDispatch, argTruthy_of_getArg_none h]
  · intro a t env h
    simp [bigqueryDispatch, argTruthy_of_getArg_none h]
  · intro a t env h
    simp [bigqueryDispatch, argTruthy_of_getArg_none h]
  · intro a po h
    simp [slackDispatch, argTruthy_of_getArg_none h]
  · intro a fo h
    simp [fetchDispatch, argTruthy_of_getArg_none h]
  · intro q t env h
    simp [bigqueryDispatch, argTruthy, getArg, truthy, argValue, h]
  · intro q t env h
    simp [bigqueryDispatch, argTruthy, getArg, truthy, argValue, h]
  · intro j t env h
    simp [bigqueryDispatch, argTruthy, getArg, truthy, argValue, h]
  · intro j t env h
    simp [bigqueryDispatch, argTruthy, getArg, truthy, argValue, h]
  · intro u po h
    cases po <;> simp [slackDispatch, argTruthy, getArg, truthy, argValue, h]
  · intro u fo h
    cases fo <;> simp [fetchDispatch, argTruthy, getArg, truthy, argValue, h]

/-- **C2, witness** for the amended theorem: each conjunct applied at a
concrete input. -/
theorem c2_amended_witness :
    bigqueryDispatch "bigquery_execute_query" (some []) .never sampleClientEnv
      = (failureEnvelope "Missing required argument: query", [])
    ∧ bigqueryDispatch "bigquery_dry_run_query" (some []) .never sampleClientEnv
      = (failureEnvelope "Missing required argument: query", [])
    ∧ bigqueryDispatch "bigquery_get_job" (some []) .never sampleClientEnv
      = (failureEnvelope "Missing required argument: jobId", [])
    ∧ bigqueryDispatch "bigquery_cancel_job" (some []) .never sampleClientEnv
      = (failureEnvelope "Missing required argument: jobId", [])
    ∧ slackDispatch "slack_get_user_profile" (some []) (.ok .null)
      = (failureEnvelope "Missing required argument: user_id", [])
    ∧ fetchDispatch "fetch" (some []) (.ok "body")
      = (failureEnvelope "URL is required", [])
    ∧ (bigqueryDispatch "bigquery_execute_query"
        (some [("query", .str "SELECT 1")]) .never sampleClientEnv).2
      = [.executeQuery (.str "SELECT 1")]
    ∧ (bigqueryDispatch "bigquery_dry_run_query"
        (some [("query", .str "SELECT 1")]) .never sampleClientEnv).2
      = [.dryRunQuery (.str "SELECT 1")]
    ∧ (bigqueryDispatch "bigquery_get_job"
        (some [("jobId", .str "j1")]) .never sampleClientEnv).2
      = [.getJob (.str "j1")]
    ∧ (bigqueryDispatch "bigquery_cancel_job"
        (some [("jobId", .str "j1")]) .never sampleClientEnv).2
      = [.cancelJob (.str "j1")]
    ∧ (slackDispatch "slack_get_user_profile"
        (some [("user_id", .str "U1")]) (.ok .null)).2
      = [.getUserProfile (.str "U1")]
    ∧ (fetchDispatch "fetch"
        (some [("url", .str "https://example.com")]) (.ok "body")).2
      = [.fetchUrl (.str "https://example.com")] := by
  obtain ⟨h1, h2, h3, h4, h5, h6, h7, h8, h9, h10, h11, h12⟩ := c2_amended
  exact ⟨h1 [] .never sampleClientEnv rfl, h2 [] .never sampleClientEnv rfl,
    h3 [] .never sampleClientEnv rfl, h4 [] .never sampleClientEnv rfl,
    h5 [] (.ok .null) rfl, h6 [] (.ok "body") rfl,
    h7 "SELECT 1" .never sampleClientEnv (by decide),
    h8 "SELECT 1" .never sampleClientEnv (by decide),
    h9 "j1" .never sampleClientEnv (by decide),
    h10 "j1" .never sampleClientEnv (by decide),
    h11 "U1" (.ok .null) (by decide),
    h12 "https://example.com" (.ok "body") (by decide)⟩

/-- **C4, counterexample.**  The claim says prompt retrieval never fails
the transport call, "in particular also when the url argument is absent".
On the code, a missing `url` throws `URL is required` and the outer catch
*rethrows* (`src/packages/fetch/index.ts` lines 159-161 and 192-195), so
the retrieval handler fails at the transport level for that input. -/
theorem c4_counterexample :
    getPrompt "fetch" none (.ok "body")
      = .error (.err "Error" "URL is required") :=
  rfl

/-- **C4, amended.**  For every prompt name (the handler never inspects
it) and every arguments mapping supplying a truthy `url`, retrieval
returns a rendered message sequence, embedding the fetch failure's message
text as the message content instead of failing the transport call; but
when the `url` argument is absent or falsy the handler throws
`URL is required`, which does reach the transport. -/
theorem c4_amended :
    (∀ (nm c : String) (a : List (String × JsonValue)),
        argTruthy a "url" = true →
        getPrompt nm (some a) (.ok c)
          = .ok ⟨"Contents of " ++ jsToString (argValue a "url"),
                 [⟨"user", c⟩]⟩)
    ∧ (∀ (nm : String) (e : Thrown) (a : List (String × JsonValue)),
        argTruthy a "url" = true →
        getPrompt nm (some a) (.error e)
          = .ok ⟨"Failed to fetch " ++ jsToString (argValue a "url"),
                 [⟨"user", e.text⟩]⟩)
    ∧ (∀ (nm : String) (o : Except Thrown String),
        getPrompt nm none o = .error (.err "Error" "URL is required"))
    ∧ (∀ (nm : String) (o : Except Thrown String)
          (a : List (String × JsonValue)),
        argTruthy a "url" = false →
        getPrompt nm (some a) o = .error (.err "Error" "URL is required")) := by
  refine ⟨?_, ?_, ?_, ?_⟩
  · intro nm c a h
    simp [getPrompt, h]
  · intro nm e a h
    simp [getPrompt, h]
  · intro nm o
    rfl
  · intro nm o a h
    simp [getPrompt, h]

/-- **C4, witness** for the amended theorem at concrete inputs. -/
theorem c4_amended_witness :
    getPrompt "fetch" (some [("url", .str "https://example.com")]) (.ok "ok")
      = .ok ⟨"Contents of https://example.com", [⟨"user", "ok"⟩]⟩
    ∧ getPrompt "fetch" (some [("url", .str "https://example.com")])
        (.error (.err "Error" "Failed to fetch https://example.com: nope"))
      = .ok ⟨"Failed to fetch https://example.com",
             [⟨"user", "Failed to fetch https://example.com: nope"⟩]⟩
    ∧ getPrompt "other" none (.ok "ok")
      = .error (.err "Error" "URL is required")
    ∧ getPrompt "fetch" (some [("url", .str "")]) (.ok "ok")
      = .error (.err "Error" "URL is required") :=
  ⟨c4_amended.1 "fetch" "ok" [("url", .str "https://example.com")] rfl,
   c4_amended.2.1 "fetch" (.err "Error" "Failed to fetch https://example.com: nope")
     [("url", .str "https://example.com")] rfl,
   c4_amended.2.2.1 "other" (.ok "ok"),
   c4_amended.2.2.2 "fetch" (.ok "ok") [("url", .str "")] rfl⟩

/-- **C5, counterexample.**  When the upstream BigQuery call rejects
(`createQueryJob` throws `boom`), `BigQueryClient.executeQuery` absorbs
the failure and resolves with its own `success: false` object, so the sole
text block's payload is the serialization of that object — not the claimed
serialization of an object with a single `error` field. -/
theorem c5_counterexample :
    (bigqueryDispatch "bigquery_execute_query"
        (some [("query", .str "SELECT 1")]) .never rejectingClientEnv).1
      = ⟨[⟨"text", "\x7b\"success\":false,\"error\":\"boom\"\x7d"⟩]⟩
    ∧ (⟨[⟨"text", "\x7b\"success\":false,\"error\":\"boom\"\x7d"⟩]⟩ : ToolResponse)
      ≠ ⟨[⟨"text", stringify (.obj [("error", .str "boom")])⟩]⟩ :=
  ⟨rfl, by decide⟩

/-- **C5, amended.**  Every failing call-tool invocation is answered with
a normal response envelope, never a transport-level error.  A failure
thrown inside the dispatcher's try block — unknown tool, missing required
field, or an exception propagating out of the fetch or Slack client —
yields a sole text block serializing an object with a single `error` field
carrying the message text; an upstream failure of `bigquery_execute_query`
is instead absorbed inside `BigQueryClient` and yields a sole text block
serializing the client's own object with `success: false` and the
upstream's message text in its `error` field. -/
theorem c5_amended :
    (∀ (name : String) (a : List (String × JsonValue)) (t : AbortTime)
        (env : BQClientEnv),
        name ≠ "bigquery_execute_query" → name ≠ "bigquery_dry_run_query" →
        name ≠ "bigquery_get_job" → name ≠ "bigquery_cancel_job" →
        (bigqueryDispatch name (some a) t env).1
          = failureEnvelope ("Unknown tool: " ++ name))
    ∧ (∀ (a : List (String × JsonValue)) (t : AbortTime) (env : BQClientEnv),
        getArg a "query" = none →
        (bigqueryDispatch "bigquery_execute_query" (some a) t env).1
          = failureEnvelope "Missing required argument: query")
    ∧ (∀ (a : List (String × JsonValue)) (e : Thrown),
        argTruthy a "url" = true →
        (fetchDispatch "fetch" (some a) (.error e)).1
          = failureEnvelope e.text)
    ∧ (∀ (a : List (String × JsonValue)) (e : Thrown),
        argTruthy a "user_id" = true →
        (slackDispatch "slack_get_user_profile" (some a) (.error e)).1
          = failureEnvelope e.text)
    ∧ (∀ (a : List (String × JsonValue)) (t : AbortTime) (env : BQClientEnv)
        (e : Thrown),
        argTruthy a "query" = true → env.exec.createJob = .error e →
        e.isAbortError = false →
        (bigqueryDispatch "bigquery_execute_query" (some a) t env).1
          = jsonEnvelope
              (.obj [("success", .bool false), ("error", .str e.text)])) := by
  refine ⟨?_, ?_, ?_, ?_, ?_⟩
  · intro name a t env h1 h2 h3 h4
    simp [bigqueryDispatch, h1, h2, h3, h4]
  · intro a t env h
    simp [bigqueryDispatch, argTruthy_of_getArg_none h]
  · intro a e h
    simp [fetchDispatch, h]
  · intro a e h
    simp [slackDispatch, h]
  · intro a t env e h hc hab
    simp [bigqueryDispatch, h, executeQuery, hc, execCatchValue, hab]

/-- **C5, witness** for the amended theorem at concrete inputs. -/
theorem c5_amended_witness :
    (bigqueryDispatch "nope" (some []) .never sampleClientEnv).1
      = failureEnvelope "Unknown tool: nope"
    ∧ (bigqueryDispatch "bigquery_execute_query" (some []) .never
        sampleClientEnv).1
      = failureEnvelope "Missing required argument: query"
    ∧ (fetchDispatch "fetch" (some [("url", .str "https://example.com")])
        (.error (.err "Error" "down"))).1
      = failureEnvelope "down"
    ∧ (slackDispatch "slack_get_user_profile" (some [("user_id", .str "U1")])
        (.error (.err "Error" "down"))).1
      = failureEnvelope "down"
    ∧ (bigqueryDispatch "bigquery_execute_query"
        (some [("query", .str "SELECT 1")]) .never rejectingClientEnv).1
      = jsonEnvelope
          (.obj [("success", .bool false), ("error", .str "boom")]) := by
  obtain ⟨h1, h2, h3, h4, h5⟩ := c5_amended
  exact ⟨h1 "nope" [] .never sampleClientEnv (by decide) (by decide)
      (by decide) (by decide),
    h2 [] .never sampleClientEnv rfl,
    h3 [("url", .str "https://example.com")] (.err "Error" "down") rfl,
    h4 [("user_id", .str "U1")] (.err "Error" "down") rfl,
    h5 [("query", .str "SELECT 1")] .never rejectingClientEnv
      (.err "Error" "boom") rfl rfl rfl⟩

/-- **C7, counterexample.**  The claim says every service in the family
requires at least one environment variable and exits non-zero when it is
absent.  The fetch service reads only `MCP_USER_AGENT`, with a default
fallback: with the entire environment empty it still proceeds to start a
transport, in both transport modes. -/
theorem c7_counterexample :
    fetchStartup (fun _ => none) false = .serving .stdio
    ∧ fetchStartup (fun _ => none) true = .serving .sse :=
  ⟨rfl, rfl⟩

/-- **C7, amended.**  The bigquery service requires
`BIGQUERY_CREDENTIALS` and the template (Slack) service requires
`SLACK_BOT_TOKEN` and `SLACK_TEAM_ID`; each logs a diagnostic and exits
with status 1 before any transport is started when a required variable is
unset or empty, and serves otherwise.  The fetch service requires no
environment variable: its only variable is optional with a built-in
default, and it always proceeds to a transport. -/
theorem c7_amended :
    (∀ (env : EnvMap) (f : Bool),
        envFalsy env "BIGQUERY_CREDENTIALS" = true →
        bigqueryStartup env f
          = .exited 1 "Please set BIGQUERY_CREDENTIALS environment variable")
    ∧ (∀ (env : EnvMap) (f : Bool),
        envFalsy env "BIGQUERY_CREDENTIALS" = false →
        bigqueryStartup env f = .serving (if f then .sse else .stdio))
    ∧ (∀ (env : EnvMap) (f : Bool),
        (envFalsy env "SLACK_BOT_TOKEN" || envFalsy env "SLACK_TEAM_ID") = true →
        slackStartup env f
          = .exited 1
              "Please set SLACK_BOT_TOKEN and SLACK_TEAM_ID environment variables")
    ∧ (∀ (env : EnvMap) (f : Bool),
        fetchStartup env f = .serving (if f then .sse else .stdio)) := by
  refine ⟨?_, ?_, ?_, ?_⟩
  · intro env f h
    simp [bigqueryStartup, h]
  · intro env f h
    simp [bigqueryStartup, h]
  · intro env f h
    simp [slackStartup, h]
  · intro env f
    rfl

/-- **C7, witness** for the amended theorem at concrete environments. -/
theorem c7_amended_witness :
    bigqueryStartup (fun _ => none) false
      = .exited 1 "Please set BIGQUERY_CREDENTIALS environment variable"
    ∧ bigqueryStartup (fun _ => some "cred") true = .serving .sse
    ∧ slackStartup (fun _ => none) false
      = .exited 1
          "Please set SLACK_BOT_TOKEN and SLACK_TEAM_ID environment variables"
    ∧ fetchStartup (fun _ => none) false = .serving .stdio :=
  ⟨c7_amended.1 (fun _ => none) false rfl,
   c7_amended.2.1 (fun _ => some "cred") true rfl,
   c7_amended.2.2.1 (fun _ => none) false rfl,
   c7_amended.2.2.2 (fun _ => none) false⟩

/-- **C9.**  Every logging call site of the three services writes to a
channel disjoint from the channel carrying protocol responses in any
transport mode under which the site can execute; in particular every site
reachable in stdio mode — where protocol messages travel on stdout —
writes to stderr.  (The only stdout sites are the `console.log` calls
inside `app.listen`, which run only in SSE mode, where protocol responses
travel on the HTTP connection.) -/
theorem c9_theorem :
    (∀ s ∈ allLogSites, ∀ m : TransportMode,
        s.reachableIn m = true → s.channel ≠ protocolChannel m)
    ∧ (∀ s ∈ allLogSites,
        s.reachableIn .stdio = true → s.channel = .stderr) := by
  refine ⟨?_, ?_⟩
  · intro s hs m hm
    cases m
    · exact (by decide :
        ∀ s ∈ allLogSites,
          s.reachableIn .stdio = true → s.channel ≠ protocolChannel .stdio)
        s hs hm
    · exact (by decide :
        ∀ s ∈ allLogSites,
          s.reachableIn .sse = true → s.channel ≠ protocolChannel .sse)
        s hs hm
  · intro s hs hm
    exact (by decide :
      ∀ s ∈ allLogSites,
        s.reachableIn .stdio = true → s.channel = .stderr) s hs hm

/-- **C9, witness**: the theorem applied to the bigquery service's
SSE-only stdout site and to a request-handler stderr site. -/
theorem c9_theorem_witness :
    (⟨"bigquery", 347, .stdout, false, true⟩ : LogSite).channel
      ≠ protocolChannel .sse
    ∧ (⟨"bigquery", 252, .stderr, true, true⟩ : LogSite).channel = .stderr :=
  ⟨c9_theorem.1 ⟨"bigquery", 347, .stdout, false, true⟩ (by decide) .sse rfl,
   c9_theorem.2 ⟨"bigquery", 252, .stderr, true, true⟩ (by decide) rfl⟩

end Mcp
